import Mathlib

/-!
Verification of the scroll-and-scrape extraction program (`p1.py`).

The development shallowly embeds the data model and the extraction loop of
the scraper: records, the row extractor, the dedup filter, the polling loop
with its stall counter, attempt ceiling, checkpoint writes and target quick
exit, and the top-level driver that reports overall success.  Browser
effects (scrolling, waiting) are abstracted away; the page content visible
at each attempt is a parameter (`source : Nat → List Row`).
-/

set_option autoImplicit false

namespace Scraper

/-- One table row record: a fixed set of optional string cell values, mapped
positionally from the first nine cells of a rendered row. -/
structure Product where
  id : Option String
  description : Option String
  stock : Option String
  color : Option String
  price : Option String
  sku : Option String
  manufacturer : Option String
  item : Option String
  size : Option String
deriving DecidableEq, Repr

/-- Python truthiness of an optional string field: `None` and `""` are falsy. -/
def truthyOpt : Option String → Bool
  | none => false
  | some s => !(s == "")

/-- The string used for id bookkeeping: `product.get('id', '')` collapses a
missing id to the empty string. -/
def idOf (p : Product) : String := p.id.getD ""

/-- Truthiness of `product.get('id', '')`. -/
def truthyId (p : Product) : Bool := truthyOpt p.id

/-- Truthiness of `any(product.values())`: some field is a non-empty string. -/
def hasAnyValue (p : Product) : Bool :=
  truthyOpt p.id || truthyOpt p.description || truthyOpt p.stock || truthyOpt p.color ||
    truthyOpt p.price || truthyOpt p.sku || truthyOpt p.manufacturer || truthyOpt p.item ||
    truthyOpt p.size

/-- A rendered table row as seen by the row extractor: visibility flag and
the list of cell texts (`None` for empty or unreadable cells). -/
structure Row where
  visible : Bool
  cells : List (Option String)
deriving DecidableEq, Repr

/-- Positional mapping of the first nine cells to the record schema
(`extract_current_page_data`, lines 510-520 of `p1.py`). -/
def rowProduct (cells : List (Option String)) : Product :=
  { id := cells.getD 0 none
    description := cells.getD 1 none
    stock := cells.getD 2 none
    color := cells.getD 3 none
    price := cells.getD 4 none
    sku := cells.getD 5 none
    manufacturer := cells.getD 6 none
    item := cells.getD 7 none
    size := cells.getD 8 none }

/-- The row extractor (`extract_current_page_data`): keeps visible rows with
at least eight cells whose record carries a truthy `id` or a truthy `sku`. -/
def extract_current_page_data (rows : List Row) : List Product :=
  rows.filterMap (fun r =>
    if r.visible = true ∧ 8 ≤ r.cells.length then
      if truthyOpt (rowProduct r.cells).id = true ∨ truthyOpt (rowProduct r.cells).sku = true then
        some (rowProduct r.cells)
      else none
    else none)

/-- The dedup filter of the polling loop (lines 596-601 of `p1.py`): a record
is kept when its id is truthy, not in the seen set, and the record has some
truthy field; kept ids are added to the seen set. -/
def filterNew : List Product → List String → List Product × List String
  | [], seen => ([], seen)
  | p :: rest, seen =>
    if truthyId p = true ∧ idOf p ∉ seen ∧ hasAnyValue p = true then
      ((p :: (filterNew rest (idOf p :: seen)).1), (filterNew rest (idOf p :: seen)).2)
    else filterNew rest seen

/-- The dedup filter of the (unreachable) final-verification passes
(lines 652-657 of `p1.py`): like `filterNew` but without the
`any(product.values())` conjunct. -/
def verifyFilter : List Product → List String → List Product × List String
  | [], seen => ([], seen)
  | p :: rest, seen =>
    if truthyId p = true ∧ idOf p ∉ seen then
      ((p :: (verifyFilter rest (idOf p :: seen)).1), (verifyFilter rest (idOf p :: seen)).2)
    else verifyFilter rest seen

/-- The truthy ids of a record list, in order: the seed of the dedup cache
(`{p.get('id') for p in self.all_products if p.get('id')}`). -/
def idsOf (ps : List Product) : List String :=
  ps.filterMap (fun p => if truthyId p = true then some (idOf p) else none)

/-- No two records of the list carry the same non-empty id. -/
def dupFreeIds (ps : List Product) : Prop := (idsOf ps).Nodup

instance (ps : List Product) : Decidable (dupFreeIds ps) := by
  unfold dupFreeIds
  infer_instance

/-- Observable data of one loop iteration: attempt number, number of newly
added records, whether a checkpoint was written, and the running total. -/
structure IterRec where
  attempt : Nat
  newCount : Nat
  saved : Bool
  countAfter : Nat
deriving DecidableEq, Repr

/-- The checkpoint rule claimed by the spec for a loop iteration. -/
def checkpointRule (r : IterRec) : Prop :=
  r.saved = true ↔ (r.attempt % 5 = 0 ∨ r.newCount = 0)

instance (r : IterRec) : Decidable (checkpointRule r) := by
  unfold checkpointRule
  infer_instance

/-- State of the extraction loop, together with the trace of checkpoint
events (`saves`, the running total recorded at each `save_continuous` call),
the per-iteration trace, and the number of final-verification passes run. -/
structure ExtractState where
  products : List Product
  seen : List String
  consecutive : Nat
  attempts : Nat
  saves : List Nat
  trace : List IterRec
  verifyPasses : Nat
deriving DecidableEq, Repr

/-- Abort threshold for consecutive empty batches (`max_no_data_attempts`). -/
def maxNoDataAttempts : Nat := 5

/-- Ceiling on total attempts (`max_attempts`). -/
def maxAttempts : Nat := 100

/-- Hardcoded expected product total. -/
def expectedTotal : Nat := 3300

/-- Checkpoint period in attempts (`total_attempts % 5 == 0`). -/
def savePeriod : Nat := 5

/-- One iteration of the polling loop body (lines 576-620 of `p1.py`):
scroll (abstracted), extract the visible rows of attempt `t`, filter through
the dedup cache, append survivors, checkpoint when the attempt number is a
multiple of five or the batch yielded nothing, and update the stall counter. -/
def loopIter (source : Nat → List Row) (s : ExtractState) : ExtractState :=
  { products := s.products ++ (filterNew (extract_current_page_data (source (s.attempts + 1))) s.seen).1
    seen := (filterNew (extract_current_page_data (source (s.attempts + 1))) s.seen).2
    consecutive :=
      if (filterNew (extract_current_page_data (source (s.attempts + 1))) s.seen).1.length = 0 then
        s.consecutive + 1
      else 0
    attempts := s.attempts + 1
    saves :=
      if (s.attempts + 1) % savePeriod = 0 ∨
          (filterNew (extract_current_page_data (source (s.attempts + 1))) s.seen).1.length = 0 then
        s.saves ++ [(s.products ++ (filterNew (extract_current_page_data (source (s.attempts + 1))) s.seen).1).length]
      else s.saves
    trace := s.trace ++
      [{ attempt := s.attempts + 1
         newCount := (filterNew (extract_current_page_data (source (s.attempts + 1))) s.seen).1.length
         saved := decide ((s.attempts + 1) % savePeriod = 0 ∨
           (filterNew (extract_current_page_data (source (s.attempts + 1))) s.seen).1.length = 0)
         countAfter := (s.products ++ (filterNew (extract_current_page_data (source (s.attempts + 1))) s.seen).1).length }]
    verifyPasses := s.verifyPasses }

/-- One pass of the final-verification block (lines 644-662 of `p1.py`):
re-extract, append records with truthy unseen ids, checkpoint. -/
def finalVerifyPass (batch : List Product) (s : ExtractState) : ExtractState :=
  { s with
    products := s.products ++ (verifyFilter batch s.seen).1
    seen := (verifyFilter batch s.seen).2
    saves := s.saves ++ [(s.products ++ (verifyFilter batch s.seen).1).length]
    verifyPasses := s.verifyPasses + 1 }

/-- The two final-verification passes (`for final_attempt in range(2)`). -/
def finalVerification (vsource : Nat → List Row) (s : ExtractState) : ExtractState :=
  finalVerifyPass (extract_current_page_data (vsource 1))
    (finalVerifyPass (extract_current_page_data (vsource 0)) s)

/-- The polling loop (lines 575-694 of `p1.py`).  `fuel` bounds the number of
remaining iterations; the loop itself stops when the stall counter reaches
`maxNoDataAttempts`, the attempt count reaches `maxAttempts`, or the quick
exit fires on reaching `expectedTotal`.  The second target test transcribes
the dead verification branch at line 640. -/
def extract_loop (source vsource : Nat → List Row) : Nat → ExtractState → ExtractState
  | 0, s => s
  | fuel + 1, s =>
    if s.consecutive < maxNoDataAttempts ∧ s.attempts < maxAttempts then
      if expectedTotal ≤ (loopIter source s).products.length then loopIter source s
      else if expectedTotal ≤ (loopIter source s).products.length then
        finalVerification vsource (loopIter source s)
      else extract_loop source vsource fuel (loopIter source s)
    else s

/-- The Result Set right after seeding: the resumed checkpoint when one was
accepted and non-empty, otherwise the output of the initial extraction
(lines 557-566 of `p1.py`). -/
def initialResultSet (resumed : Option (List Product)) (initialRows : List Row) : List Product :=
  if (resumed.getD []).length = 0 then (resumed.getD []) ++ extract_current_page_data initialRows
  else resumed.getD []

/-- Checkpoint events written before the loop starts: the immediate save
after a fresh-start initial extraction. -/
def initialSaves (resumed : Option (List Product)) (initialRows : List Row) : List Nat :=
  if (resumed.getD []).length = 0 then [(initialResultSet resumed initialRows).length] else []

/-- Loop state at entry: seeded Result Set, dedup cache built from its truthy
ids (line 570 of `p1.py`), zeroed counters. -/
def initLoopState (resumed : Option (List Product)) (initialRows : List Row) : ExtractState :=
  { products := initialResultSet resumed initialRows
    seen := idsOf (initialResultSet resumed initialRows)
    consecutive := 0
    attempts := 0
    saves := initialSaves resumed initialRows
    trace := []
    verifyPasses := 0 }

/-- `extract_product_data` (lines 534-714 of `p1.py`): when no scrollable
container is found the seeded Result Set is returned unchanged with no save;
otherwise the loop runs and a final `save_continuous` records the total. -/
def extract_product_data (resumed : Option (List Product)) (containerFound : Bool)
    (initialRows : List Row) (source vsource : Nat → List Row) : ExtractState :=
  if containerFound = true then
    { extract_loop source vsource maxAttempts (initLoopState resumed initialRows) with
      saves := (extract_loop source vsource maxAttempts (initLoopState resumed initialRows)).saves ++
        [(extract_loop source vsource maxAttempts (initLoopState resumed initialRows)).products.length] }
  else
    { products := resumed.getD [], seen := [], consecutive := 0, attempts := 0,
      saves := [], trace := [], verifyPasses := 0 }

/-- Outcome of the top-level driver: whether it reports success and whether
the final `completed`-status checkpoint (`save_final_data`) was written. -/
structure RunResult where
  success : Bool
  completedSaved : Bool
deriving DecidableEq, Repr

/-- The driver `run` (lines 716-766 of `p1.py`): authentication, challenge
launch and table navigation are external collaborators modelled by booleans;
after extraction, the final `completed` checkpoint is written and success
reported exactly when the returned product list is non-empty. -/
def runScraper (authOk launchOk navOk : Bool) (resumed : Option (List Product))
    (containerFound : Bool) (initialRows : List Row) (source vsource : Nat → List Row) :
    RunResult :=
  if authOk = false then { success := false, completedSaved := false }
  else if launchOk = false then { success := false, completedSaved := false }
  else if navOk = false then { success := false, completedSaved := false }
  else if (extract_product_data resumed containerFound initialRows source vsource).products.isEmpty = true then
    { success := false, completedSaved := false }
  else { success := true, completedSaved := true }

/-- Name of the numbered backup artifact written at each checkpoint event
(`progress_backup_<count>.json`, line 64 of `p1.py`). -/
def backupName (count : Nat) : String :=
  "progress_backup_" ++ toString count ++ ".json"

/-- The exit condition of the polling loop: stalled out, attempt ceiling, or
target reached. -/
def loopExitCondition (s : ExtractState) : Prop :=
  maxNoDataAttempts ≤ s.consecutive ∨ maxAttempts ≤ s.attempts ∨
    expectedTotal ≤ s.products.length

instance (s : ExtractState) : Decidable (loopExitCondition s) := by
  unfold loopExitCondition
  infer_instance

/-- First-occurrence characterisation of the dedup filter: `p` occurs at a
position of the batch with truthy id and some truthy field, its id is not in
the seen set, and no earlier batch entry carries the same id. -/
def FirstOcc (b : List Product) (seen : List String) (p : Product) : Prop :=
  truthyId p = true ∧ hasAnyValue p = true ∧ idOf p ∉ seen ∧
    ∃ n : Nat, b.get? n = some p ∧ ∀ q ∈ b.take n, idOf q ≠ idOf p

/-- A record with only an id field set. -/
def mkProductId (i : String) : Product :=
  { id := some i, description := none, stock := none, color := none, price := none,
    sku := none, manufacturer := none, item := none, size := none }

/-- Cell list of a well-formed eight-cell row with the given id. -/
def exRowCells (i : String) : List (Option String) :=
  [some i, some "d", some "s", some "c", some "p", some "k", some "m", some "t"]

/-- A visible eight-cell row with the given id. -/
def mkRow (i : String) : Row := { visible := true, cells := exRowCells i }

/-- A page source that never shows any rows. -/
def emptySource : Nat → List Row := fun _ => []

/-- A page source that always shows one row with id `B1`. -/
def oneNewSource : Nat → List Row := fun _ => [mkRow "B1"]

/-- The dedup-example seen set `{"A1", "A2"}`. -/
def exSeen : List String := ["A1", "A2"]

/-- The dedup-example batch with ids `A1`, `A3`, `A3`, `""`. -/
def exBatch : List Product :=
  [mkProductId "A1", mkProductId "A3", mkProductId "A3", mkProductId ""]

/-- An initial page showing the same id twice. -/
def dupRows : List Row := [mkRow "A1", mkRow "A1"]

/-- An initial page showing one row. -/
def oneRow : List Row := [mkRow "A1"]

/-- A resumed checkpoint carrying 3299 records. -/
def bigSeed : List Product := List.replicate 3299 (mkProductId "A1")

end Scraper

namespace Scraper

/-- A truthy id is a non-empty id string. -/
theorem truthyId_iff (p : Product) : truthyId p = true ↔ idOf p ≠ "" := by
  cases h : p.id <;> simp [truthyId, truthyOpt, idOf, h]

/-- A record with a truthy id has some truthy field. -/
theorem truthyId_hasAnyValue (p : Product) (h : truthyId p = true) : hasAnyValue p = true := by
  rw [truthyId] at h
  simp [hasAnyValue, h]

/-- The updated seen set contains exactly the kept ids and the old seen set. -/
theorem filterNew_snd_mem (b : List Product) :
    ∀ (seen : List String) (x : String),
      x ∈ (filterNew b seen).2 ↔ x ∈ (filterNew b seen).1.map idOf ∨ x ∈ seen := by
  induction b with
  | nil => intro seen x; simp [filterNew]
  | cons p rest ih =>
    intro seen x
    by_cases hc : truthyId p = true ∧ idOf p ∉ seen ∧ hasAnyValue p = true
    · simp only [filterNew, if_pos hc, List.map_cons, List.mem_cons]
      rw [ih (idOf p :: seen) x]
      simp only [List.mem_cons]
      tauto
    · simp only [filterNew, if_neg hc]
      exact ih seen x

/-- Every record kept by the dedup filter comes from the batch, carries a
truthy id and some truthy field, and its id was not previously seen. -/
theorem filterNew_fst_mem (b : List Product) :
    ∀ (seen : List String) (q : Product), q ∈ (filterNew b seen).1 →
      q ∈ b ∧ truthyId q = true ∧ hasAnyValue q = true ∧ idOf q ∉ seen := by
  induction b with
  | nil => intro seen q hq; simp [filterNew] at hq
  | cons p rest ih =>
    intro seen q hq
    by_cases hc : truthyId p = true ∧ idOf p ∉ seen ∧ hasAnyValue p = true
    · simp only [filterNew, if_pos hc, List.mem_cons] at hq
      rcases hq with rfl | hq
      · exact ⟨List.mem_cons_self _ _, hc.1, hc.2.2, hc.2.1⟩
      · obtain ⟨hm, ht, hv, hns⟩ := ih (idOf p :: seen) q hq
        exact ⟨List.mem_cons_of_mem _ hm, ht, hv, fun hx => hns (List.mem_cons_of_mem _ hx)⟩
    · simp only [filterNew, if_neg hc] at hq
      obtain ⟨hm, ht, hv, hns⟩ := ih seen q hq
      exact ⟨List.mem_cons_of_mem _ hm, ht, hv, hns⟩

/-- The ids kept by the dedup filter are pairwise distinct. -/
theorem filterNew_ids_nodup (b : List Product) :
    ∀ seen : List String, ((filterNew b seen).1.map idOf).Nodup := by
  induction b with
  | nil => intro seen; simp [filterNew]
  | cons p rest ih =>
    intro seen
    by_cases hc : truthyId p = true ∧ idOf p ∉ seen ∧ hasAnyValue p = true
    · simp only [filterNew, if_pos hc, List.map_cons, List.nodup_cons]
      refine ⟨?_, ih (idOf p :: seen)⟩
      intro hmem
      obtain ⟨q, hq, hqid⟩ := List.mem_map.1 hmem
      obtain ⟨-, -, -, hns⟩ := filterNew_fst_mem rest (idOf p :: seen) q hq
      exact hns (hqid ▸ List.mem_cons_self _ _)
    · simp only [filterNew, if_neg hc]
      exact ih seen

/-- After a pass of the dedup filter, every truthy id of the batch is in the
updated seen set. -/
theorem filterNew_mem_snd_of_truthy (b : List Product) :
    ∀ (seen : List String) (q : Product), q ∈ b → truthyId q = true →
      idOf q ∈ (filterNew b seen).2 := by
  induction b with
  | nil => intro seen q hq; simp at hq
  | cons p rest ih =>
    intro seen q hq ht
    rcases List.mem_cons.1 hq with rfl | hq
    · by_cases hc : truthyId q = true ∧ idOf q ∉ seen ∧ hasAnyValue q = true
      · rw [filterNew_snd_mem]
        simp [filterNew, if_pos hc]
      · have hin : idOf q ∈ seen := by
          by_contra hns
          exact hc ⟨ht, hns, truthyId_hasAnyValue q ht⟩
        rw [filterNew_snd_mem]
        exact Or.inr hin
    · by_cases hc : truthyId p = true ∧ idOf p ∉ seen ∧ hasAnyValue p = true
      · simp only [filterNew, if_pos hc]
        exact ih (idOf p :: seen) q hq ht
      · simp only [filterNew, if_neg hc]
        exact ih seen q hq ht

/-- When every truthy id of the batch is already seen, the dedup filter keeps
nothing and leaves the seen set unchanged. -/
theorem filterNew_eq_nil (b : List Product) :
    ∀ seen : List String, (∀ q ∈ b, truthyId q = true → idOf q ∈ seen) →
      filterNew b seen = ([], seen) := by
  induction b with
  | nil => intro seen _; rfl
  | cons p rest ih =>
    intro seen h
    have hc : ¬(truthyId p = true ∧ idOf p ∉ seen ∧ hasAnyValue p = true) := by
      rintro ⟨ht, hns, -⟩
      exact hns (h p (List.mem_cons_self _ _) ht)
    simp only [filterNew, if_neg hc]
    exact ih seen (fun q hq => h q (List.mem_cons_of_mem _ hq))

/-- Membership in the dedup filter output is exactly first occurrence of a
valid, unseen id in the batch. -/
theorem filterNew_mem_iff (b : List Product) :
    ∀ (seen : List String) (p : Product),
      p ∈ (filterNew b seen).1 ↔ FirstOcc b seen p := by
  induction b with
  | nil =>
    intro seen p
    simp [filterNew, FirstOcc]
  | cons a rest ih =>
    intro seen p
    by_cases hc : truthyId a = true ∧ idOf a ∉ seen ∧ hasAnyValue a = true
    · simp only [filterNew, if_pos hc, List.mem_cons]
      constructor
      · rintro (rfl | hmem)
        · exact ⟨hc.1, hc.2.2, hc.2.1, 0, rfl, by simp⟩
        · obtain ⟨ht, hv, hns, n, hg, hearlier⟩ := (ih (idOf a :: seen) p).1 hmem
          have hne : idOf p ≠ idOf a := by
            intro heq
            exact hns (heq ▸ List.mem_cons_self _ _)
          refine ⟨ht, hv, fun hx => hns (List.mem_cons_of_mem _ hx), n + 1, by simpa using hg, ?_⟩
          intro q hq
          rw [List.take_succ_cons] at hq
          rcases List.mem_cons.1 hq with rfl | hq
          · exact fun h => hne h.symm
          · exact hearlier q hq
      · rintro ⟨ht, hv, hns, n, hg, hearlier⟩
        cases n with
        | zero =>
          left
          have : some a = some p := by simpa using hg
          exact (Option.some.inj this).symm
        | succ m =>
          right
          apply (ih (idOf a :: seen) p).2
          have hne : idOf a ≠ idOf p :=
            hearlier a (by rw [List.take_succ_cons]; exact List.mem_cons_self _ _)
          refine ⟨ht, hv, ?_, m, by simpa using hg, ?_⟩
          · intro hx
            rcases List.mem_cons.1 hx with heq | hx
            · exact hne heq.symm
            · exact hns hx
          · intro q hq
            exact hearlier q (by rw [List.take_succ_cons]; exact List.mem_cons_of_mem _ hq)
    · simp only [filterNew, if_neg hc]
      rw [ih seen p]
      constructor
      · rintro ⟨ht, hv, hns, n, hg, hearlier⟩
        refine ⟨ht, hv, hns, n + 1, by simpa using hg, ?_⟩
        intro q hq
        rw [List.take_succ_cons] at hq
        rcases List.mem_cons.1 hq with rfl | hq
        · intro heq
          have hta : truthyId q = true := by
            rw [truthyId_iff]
            rw [heq]
            exact (truthyId_iff p).1 ht
          have hnsa : idOf q ∉ seen := heq ▸ hns
          exact hc ⟨hta, hnsa, truthyId_hasAnyValue q hta⟩
        · exact hearlier q hq
      · rintro ⟨ht, hv, hns, n, hg, hearlier⟩
        cases n with
        | zero =>
          exfalso
          have : some a = some p := by simpa using hg
          have heq : a = p := Option.some.inj this
          exact hc (heq ▸ ⟨ht, hns, hv⟩)
        | succ m =>
          refine ⟨ht, hv, hns, m, by simpa using hg, ?_⟩
          intro q hq
          exact hearlier q (by rw [List.take_succ_cons]; exact List.mem_cons_of_mem _ hq)

end Scraper

namespace Scraper

/-- On an all-truthy record list, `idsOf` is just the map of ids. -/
theorem idsOf_all_truthy (l : List Product) (h : ∀ p ∈ l, truthyId p = true) :
    idsOf l = l.map idOf := by
  induction l with
  | nil => rfl
  | cons p rest ih =>
    have hp := h p (List.mem_cons_self _ _)
    have hcons : idsOf (p :: rest) = idOf p :: idsOf rest := by
      simp [idsOf, List.filterMap_cons, hp]
    rw [hcons, List.map_cons, ih (fun q hq => h q (List.mem_cons_of_mem _ hq))]

/-- The truthy ids of an appended record list. -/
theorem idsOf_append (l₁ l₂ : List Product) : idsOf (l₁ ++ l₂) = idsOf l₁ ++ idsOf l₂ := by
  simp [idsOf, List.filterMap_append]

/-- Unfolding of the loop at positive fuel. -/
theorem extract_loop_succ (source vsource : Nat → List Row) (fuel : Nat) (s : ExtractState) :
    extract_loop source vsource (fuel + 1) s =
      if s.consecutive < maxNoDataAttempts ∧ s.attempts < maxAttempts then
        if expectedTotal ≤ (loopIter source s).products.length then loopIter source s
        else if expectedTotal ≤ (loopIter source s).products.length then
          finalVerification vsource (loopIter source s)
        else extract_loop source vsource fuel (loopIter source s)
      else s := rfl

/-- Everything the loop appends has a fresh, truthy id: the loop only grows
the Result Set by records whose ids are pairwise distinct, absent from the
entry seen set, and recorded in the final seen set. -/
theorem extract_loop_growth (source vsource : Nat → List Row) :
    ∀ (fuel : Nat) (s : ExtractState),
    ∃ added : List Product,
      (extract_loop source vsource fuel s).products = s.products ++ added ∧
      (∀ p ∈ added, truthyId p = true) ∧
      (added.map idOf).Nodup ∧
      (∀ x ∈ added.map idOf, x ∉ s.seen) ∧
      (∀ x, (x ∈ s.seen ∨ x ∈ added.map idOf) →
        x ∈ (extract_loop source vsource fuel s).seen) := by
  intro fuel
  induction fuel with
  | zero =>
    intro s
    exact ⟨[], by simp [extract_loop], by simp, by simp, by simp, by simp [extract_loop]⟩
  | succ fuel ih =>
    intro s
    rw [extract_loop_succ]
    by_cases hg : s.consecutive < maxNoDataAttempts ∧ s.attempts < maxAttempts
    · rw [if_pos hg]
      by_cases ht : expectedTotal ≤ (loopIter source s).products.length
      · rw [if_pos ht]
        refine ⟨(filterNew (extract_current_page_data (source (s.attempts + 1))) s.seen).1,
          rfl, ?_, filterNew_ids_nodup _ _, ?_, ?_⟩
        · intro p hp
          exact (filterNew_fst_mem _ _ p hp).2.1
        · intro x hx
          obtain ⟨q, hq, rfl⟩ := List.mem_map.1 hx
          exact (filterNew_fst_mem _ _ q hq).2.2.2
        · intro x hx
          show x ∈ (filterNew (extract_current_page_data (source (s.attempts + 1))) s.seen).2
          rw [filterNew_snd_mem]
          exact hx.symm
      · rw [if_neg ht, if_neg ht]
        obtain ⟨added₂, h1, h2, h3, h4, h5⟩ := ih (loopIter source s)
        refine ⟨(filterNew (extract_current_page_data (source (s.attempts + 1))) s.seen).1 ++ added₂,
          ?_, ?_, ?_, ?_, ?_⟩
        · rw [h1]
          show (s.products ++ (filterNew (extract_current_page_data (source (s.attempts + 1))) s.seen).1) ++ added₂ = _
          rw [List.append_assoc]
        · intro p hp
          rcases List.mem_append.1 hp with hp | hp
          · exact (filterNew_fst_mem _ _ p hp).2.1
          · exact h2 p hp
        · rw [List.map_append, List.nodup_append]
          refine ⟨filterNew_ids_nodup _ _, h3, ?_⟩
          intro x hx hx₂
          apply h4 x hx₂
          show x ∈ (filterNew (extract_current_page_data (source (s.attempts + 1))) s.seen).2
          rw [filterNew_snd_mem]
          exact Or.inl hx
        · intro x hx
          rw [List.map_append, List.mem_append] at hx
          rcases hx with hx | hx
          · obtain ⟨q, hq, rfl⟩ := List.mem_map.1 hx
            exact (filterNew_fst_mem _ _ q hq).2.2.2
          · intro hmem
            apply h4 x hx
            show x ∈ (filterNew (extract_current_page_data (source (s.attempts + 1))) s.seen).2
            rw [filterNew_snd_mem]
            exact Or.inr hmem
        · intro x hx
          apply h5
          rcases hx with hx | hx
          · left
            show x ∈ (filterNew (extract_current_page_data (source (s.attempts + 1))) s.seen).2
            rw [filterNew_snd_mem]
            exact Or.inr hx
          · rw [List.map_append, List.mem_append] at hx
            rcases hx with hx | hx
            · left
              show x ∈ (filterNew (extract_current_page_data (source (s.attempts + 1))) s.seen).2
              rw [filterNew_snd_mem]
              exact Or.inl hx
            · exact Or.inr hx
    · rw [if_neg hg]
      exact ⟨[], by simp, by simp, by simp, by simp, by simp⟩

/-- Provided the seen set covers the ids of the accumulated records and those
records are duplicate-free, the loop keeps the Result Set duplicate-free. -/
theorem extract_loop_dupFree (source vsource : Nat → List Row) (fuel : Nat) (s : ExtractState)
    (hseen : ∀ x ∈ idsOf s.products, x ∈ s.seen) (h : dupFreeIds s.products) :
    dupFreeIds ((extract_loop source vsource fuel s).products) := by
  obtain ⟨added, h1, h2, h3, h4, -⟩ := extract_loop_growth source vsource fuel s
  rw [dupFreeIds, h1, idsOf_append, idsOf_all_truthy added h2, List.nodup_append]
  refine ⟨h, h3, ?_⟩
  intro x hx hx₂
  exact h4 x hx₂ (hseen x hx)

/-- The final-verification counter is never incremented by the loop: the
verification branch is unreachable behind the quick exit. -/
theorem extract_loop_verifyPasses (source vsource : Nat → List Row) :
    ∀ (fuel : Nat) (s : ExtractState),
      (extract_loop source vsource fuel s).verifyPasses = s.verifyPasses := by
  intro fuel
  induction fuel with
  | zero => intro s; rfl
  | succ fuel ih =>
    intro s
    rw [extract_loop_succ]
    by_cases hg : s.consecutive < maxNoDataAttempts ∧ s.attempts < maxAttempts
    · rw [if_pos hg]
      by_cases ht : expectedTotal ≤ (loopIter source s).products.length
      · rw [if_pos ht]; rfl
      · rw [if_neg ht, if_neg ht, ih]; rfl
    · rw [if_neg hg]

/-- Every iteration record produced by the loop satisfies the checkpoint
rule: saved exactly when the attempt is a multiple of five or no new record
was found. -/
theorem extract_loop_trace (source vsource : Nat → List Row) :
    ∀ (fuel : Nat) (s : ExtractState),
      (∀ r ∈ s.trace, checkpointRule r) →
      ∀ r ∈ (extract_loop source vsource fuel s).trace, checkpointRule r := by
  intro fuel
  induction fuel with
  | zero => intro s h; exact h
  | succ fuel ih =>
    intro s h
    have hstep : ∀ r ∈ (loopIter source s).trace, checkpointRule r := by
      intro r hr
      have htr : (loopIter source s).trace = s.trace ++
        [{ attempt := s.attempts + 1
           newCount := (filterNew (extract_current_page_data (source (s.attempts + 1))) s.seen).1.length
           saved := decide ((s.attempts + 1) % savePeriod = 0 ∨
             (filterNew (extract_current_page_data (source (s.attempts + 1))) s.seen).1.length = 0)
           countAfter := (s.products ++ (filterNew (extract_current_page_data (source (s.attempts + 1))) s.seen).1).length }] := rfl
      rw [htr, List.mem_append, List.mem_singleton] at hr
      rcases hr with hr | rfl
      · exact h r hr
      · simp [checkpointRule, savePeriod]
    rw [extract_loop_succ]
    by_cases hg : s.consecutive < maxNoDataAttempts ∧ s.attempts < maxAttempts
    · rw [if_pos hg]
      by_cases ht : expectedTotal ≤ (loopIter source s).products.length
      · rw [if_pos ht]; exact hstep
      · rw [if_neg ht, if_neg ht]
        exact ih (loopIter source s) hstep
    · rw [if_neg hg]; exact h

/-- The checkpoint running totals stay sorted and bounded by the Result Set
size throughout the loop. -/
theorem extract_loop_savesSorted (source vsource : Nat → List Row) :
    ∀ (fuel : Nat) (s : ExtractState),
      s.saves.Sorted (· ≤ ·) → (∀ c ∈ s.saves, c ≤ s.products.length) →
      (extract_loop source vsource fuel s).saves.Sorted (· ≤ ·) ∧
        ∀ c ∈ (extract_loop source vsource fuel s).saves,
          c ≤ (extract_loop source vsource fuel s).products.length := by
  intro fuel
  induction fuel with
  | zero => intro s h1 h2; exact ⟨h1, h2⟩
  | succ fuel ih =>
    intro s h1 h2
    have hlen : s.products.length ≤ (loopIter source s).products.length := by
      show s.products.length ≤ (s.products ++ _).length
      simp
    have hsaves : (loopIter source s).saves = if (s.attempts + 1) % savePeriod = 0 ∨
        (filterNew (extract_current_page_data (source (s.attempts + 1))) s.seen).1.length = 0 then
        s.saves ++ [(s.products ++ (filterNew (extract_current_page_data (source (s.attempts + 1))) s.seen).1).length]
      else s.saves := rfl
    have hplen : (loopIter source s).products.length =
        (s.products ++ (filterNew (extract_current_page_data (source (s.attempts + 1))) s.seen).1).length := rfl
    have hstep1 : (loopIter source s).saves.Sorted (· ≤ ·) := by
      rw [hsaves]
      split
      · rw [List.Sorted, List.pairwise_append]
        refine ⟨h1, List.pairwise_singleton _ _, ?_⟩
        intro a ha b hb
        rw [List.mem_singleton] at hb
        subst hb
        exact le_trans (h2 a ha) hlen
      · exact h1
    have hstep2 : ∀ c ∈ (loopIter source s).saves, c ≤ (loopIter source s).products.length := by
      intro c hc
      rw [hsaves] at hc
      rw [hplen]
      revert hc
      split
      · intro hc
        rw [List.mem_append, List.mem_singleton] at hc
        rcases hc with hc | rfl
        · exact le_trans (h2 c hc) hlen
        · exact le_refl _
      · intro hc
        exact le_trans (h2 c hc) hlen
    rw [extract_loop_succ]
    by_cases hg : s.consecutive < maxNoDataAttempts ∧ s.attempts < maxAttempts
    · rw [if_pos hg]
      by_cases ht : expectedTotal ≤ (loopIter source s).products.length
      · rw [if_pos ht]; exact ⟨hstep1, hstep2⟩
      · rw [if_neg ht, if_neg ht]
        exact ih (loopIter source s) hstep1 hstep2
    · rw [if_neg hg]; exact ⟨h1, h2⟩

/-- With enough fuel (the attempt ceiling), the loop always halts in a state
satisfying its exit condition. -/
theorem extract_loop_exit (source vsource : Nat → List Row) :
    ∀ (fuel : Nat) (s : ExtractState), maxAttempts ≤ s.attempts + fuel →
      loopExitCondition (extract_loop source vsource fuel s) := by
  intro fuel
  induction fuel with
  | zero =>
    intro s h
    rw [Nat.add_zero] at h
    exact Or.inr (Or.inl h)
  | succ fuel ih =>
    intro s h
    rw [extract_loop_succ]
    by_cases hg : s.consecutive < maxNoDataAttempts ∧ s.attempts < maxAttempts
    · rw [if_pos hg]
      by_cases ht : expectedTotal ≤ (loopIter source s).products.length
      · rw [if_pos ht]
        exact Or.inr (Or.inr ht)
      · rw [if_neg ht, if_neg ht]
        apply ih (loopIter source s)
        show maxAttempts ≤ s.attempts + 1 + fuel
        omega
    · rw [if_neg hg]
      rcases Nat.lt_or_ge s.consecutive maxNoDataAttempts with hlt | hge
      · rcases Nat.lt_or_ge s.attempts maxAttempts with hlt₂ | hge₂
        · exact absurd ⟨hlt, hlt₂⟩ hg
        · exact Or.inr (Or.inl hge₂)
      · exact Or.inl hge

/-- Once the stall threshold or the attempt ceiling is reached, the loop
stops immediately, leaving the state untouched. -/
theorem extract_loop_stopped (source vsource : Nat → List Row) (fuel : Nat) (s : ExtractState)
    (h : maxNoDataAttempts ≤ s.consecutive ∨ maxAttempts ≤ s.attempts) :
    extract_loop source vsource fuel s = s := by
  cases fuel with
  | zero => rfl
  | succ fuel =>
    rw [extract_loop_succ, if_neg]
    rintro ⟨h1, h2⟩
    rcases h with h | h
    · omega
    · omega

end Scraper

namespace Scraper

/-- The Result Set at loop entry is the seeded Result Set. -/
theorem initLoopState_products (resumed : Option (List Product)) (rows : List Row) :
    (initLoopState resumed rows).products = initialResultSet resumed rows := rfl

/-- The dedup cache at loop entry holds the truthy ids of the seeded set. -/
theorem initLoopState_seen (resumed : Option (List Product)) (rows : List Row) :
    (initLoopState resumed rows).seen = idsOf (initialResultSet resumed rows) := rfl

/-- The attempt counter starts at zero. -/
theorem initLoopState_attempts (resumed : Option (List Product)) (rows : List Row) :
    (initLoopState resumed rows).attempts = 0 := rfl

/-- Result Set after one loop iteration: old records plus dedup survivors. -/
theorem loopIter_products (source : Nat → List Row) (s : ExtractState) :
    (loopIter source s).products =
      s.products ++ (filterNew (extract_current_page_data (source (s.attempts + 1))) s.seen).1 := rfl

/-- With the container found, the extraction result carries the loop's
Result Set. -/
theorem extract_product_data_true_products (resumed : Option (List Product)) (rows : List Row)
    (source vsource : Nat → List Row) :
    (extract_product_data resumed true rows source vsource).products =
      (extract_loop source vsource maxAttempts (initLoopState resumed rows)).products := rfl

/-- With the container found, the extraction result carries the loop's
verification counter. -/
theorem extract_product_data_true_verifyPasses (resumed : Option (List Product)) (rows : List Row)
    (source vsource : Nat → List Row) :
    (extract_product_data resumed true rows source vsource).verifyPasses =
      (extract_loop source vsource maxAttempts (initLoopState resumed rows)).verifyPasses := rfl

/-- With the container found, the extraction result carries the loop's
attempt counter. -/
theorem extract_product_data_true_attempts (resumed : Option (List Product)) (rows : List Row)
    (source vsource : Nat → List Row) :
    (extract_product_data resumed true rows source vsource).attempts =
      (extract_loop source vsource maxAttempts (initLoopState resumed rows)).attempts := rfl

/-- With the container found, the extraction result carries the loop's
iteration trace. -/
theorem extract_product_data_true_trace (resumed : Option (List Product)) (rows : List Row)
    (source vsource : Nat → List Row) :
    (extract_product_data resumed true rows source vsource).trace =
      (extract_loop source vsource maxAttempts (initLoopState resumed rows)).trace := rfl

/-- With the container found, the final save appends the total to the loop's
checkpoint totals. -/
theorem extract_product_data_true_saves (resumed : Option (List Product)) (rows : List Row)
    (source vsource : Nat → List Row) :
    (extract_product_data resumed true rows source vsource).saves =
      (extract_loop source vsource maxAttempts (initLoopState resumed rows)).saves ++
        [(extract_loop source vsource maxAttempts (initLoopState resumed rows)).products.length] := rfl

/-- With the three collaborator steps succeeding, the driver reports by the
emptiness of the extracted Result Set. -/
theorem runScraper_true (resumed : Option (List Product)) (cf : Bool) (rows : List Row)
    (source vsource : Nat → List Row) :
    runScraper true true true resumed cf rows source vsource =
      if (extract_product_data resumed cf rows source vsource).products.isEmpty = true
      then { success := false, completedSaved := false }
      else { success := true, completedSaved := true } := rfl

/-- Every record produced by the row extractor carries a truthy id or a
truthy sku. -/
theorem extract_validity (rows : List Row) (p : Product)
    (hp : p ∈ extract_current_page_data rows) :
    truthyOpt p.id = true ∨ truthyOpt p.sku = true := by
  unfold extract_current_page_data at hp
  rw [List.mem_filterMap] at hp
  obtain ⟨r, hr, hf⟩ := hp
  by_cases h1 : r.visible = true ∧ 8 ≤ r.cells.length
  · rw [if_pos h1] at hf
    by_cases h2 : truthyOpt (rowProduct r.cells).id = true ∨ truthyOpt (rowProduct r.cells).sku = true
    · rw [if_pos h2] at hf
      have heq : rowProduct r.cells = p := Option.some.inj hf
      subst heq
      exact h2
    · rw [if_neg h2] at hf
      exact absurd hf (by simp)
  · rw [if_neg h1] at hf
    exact absurd hf (by simp)

/-- A fresh start seeds the Result Set with the initial extraction. -/
theorem initialResultSet_fresh (rows : List Row) :
    initialResultSet none rows = extract_current_page_data rows := by
  simp [initialResultSet]

/-- The 3299-record resumed seed is taken verbatim. -/
theorem bigSeed_initialResultSet : initialResultSet (some bigSeed) [] = bigSeed := by
  unfold initialResultSet
  rw [if_neg]
  · rfl
  · show ¬(List.replicate 3299 (mkProductId "A1")).length = 0
    rw [List.length_replicate]
    decide

/-- The dedup cache seeded from the 3299-record seed is 3299 copies of `A1`. -/
theorem bigSeed_seen : idsOf bigSeed = List.replicate 3299 "A1" := by
  show idsOf (List.replicate 3299 (mkProductId "A1")) = _
  rw [idsOf_all_truthy]
  · rw [List.map_replicate]
    exact rfl
  · intro p hp
    rw [List.eq_of_mem_replicate hp]
    decide

/-- The fresh row with id `B1` survives the dedup filter over the seed. -/
theorem bigSeed_filterNew :
    (filterNew [rowProduct (exRowCells "B1")] (idsOf bigSeed)).1 =
      [rowProduct (exRowCells "B1")] := by
  have hcond : truthyId (rowProduct (exRowCells "B1")) = true ∧
      idOf (rowProduct (exRowCells "B1")) ∉ idsOf bigSeed ∧
      hasAnyValue (rowProduct (exRowCells "B1")) = true := by
    refine ⟨by decide, ?_, by decide⟩
    rw [bigSeed_seen]
    intro h
    have h2 : idOf (rowProduct (exRowCells "B1")) = "A1" := List.eq_of_mem_replicate h
    exact absurd h2 (by decide)
  simp only [filterNew, if_pos hcond]

/-- One iteration over the 3299-record seed appends the fresh record. -/
theorem bigSeed_loopIter_products :
    (loopIter oneNewSource (initLoopState (some bigSeed) [])).products =
      bigSeed ++ [rowProduct (exRowCells "B1")] := by
  rw [loopIter_products, initLoopState_products, initLoopState_seen, initLoopState_attempts,
    bigSeed_initialResultSet]
  have h3 : extract_current_page_data (oneNewSource (0 + 1)) = [rowProduct (exRowCells "B1")] := rfl
  rw [h3, bigSeed_filterNew]

/-- One iteration over the 3299-record seed reaches the 3300 target. -/
theorem bigSeed_length :
    (loopIter oneNewSource (initLoopState (some bigSeed) [])).products.length = 3300 := by
  rw [bigSeed_loopIter_products, List.length_append]
  have hb : bigSeed.length = 3299 := by
    show (List.replicate 3299 (mkProductId "A1")).length = 3299
    rw [List.length_replicate]
  rw [hb]
  rfl

end Scraper

namespace Scraper

/-- C1 (counterexample): on a fresh start whose initial page shows the same
id twice, the extraction loop's accumulated Result Set contains two records
with the same non-empty id, refuting the claim for the initial fresh-start
extraction. -/
theorem C1_counterexample :
    ¬ dupFreeIds ((extract_product_data none true dupRows emptySource emptySource).products) := by
  decide

/-- C1 (amended): provided the seeded Result Set (the resumed checkpoint, or
the output of the fresh-start initial extraction) contains no two records
with the same non-empty id, the Result Set never does at any later point of
the extraction loop, nor in the final extraction result. -/
theorem C1_dedup_invariant_amended (resumed : Option (List Product)) (initialRows : List Row)
    (source vsource : Nat → List Row) (fuel : Nat)
    (h : dupFreeIds (initialResultSet resumed initialRows)) :
    dupFreeIds ((extract_loop source vsource fuel (initLoopState resumed initialRows)).products) ∧
    dupFreeIds ((extract_product_data resumed true initialRows source vsource).products) := by
  have hmain : ∀ f : Nat,
      dupFreeIds ((extract_loop source vsource f (initLoopState resumed initialRows)).products) := by
    intro f
    apply extract_loop_dupFree
    · intro x hx
      rw [initLoopState_seen]
      rw [initLoopState_products] at hx
      exact hx
    · rw [initLoopState_products]
      exact h
  refine ⟨hmain fuel, ?_⟩
  rw [dupFreeIds, extract_product_data_true_products]
  exact hmain maxAttempts

/-- C1 (witness): a resumed single-record checkpoint is duplicate-free and
stays so through a run against an empty page. -/
theorem C1_witness :
    dupFreeIds ((extract_product_data (some [mkProductId "A1"]) true [] emptySource
      emptySource).products) :=
  (C1_dedup_invariant_amended (some [mkProductId "A1"]) [] emptySource emptySource maxAttempts
    (by decide)).2

/-- C2: the loop always halts in a state satisfying its exit condition when
given fuel covering the attempt ceiling; it stops immediately once the
stall threshold or the attempt ceiling is reached; and against a source
that never yields rows, a fresh run stops after exactly five attempts. -/
theorem C2_termination :
    (∀ (source vsource : Nat → List Row) (fuel : Nat) (s : ExtractState),
        maxAttempts ≤ s.attempts + fuel →
        loopExitCondition (extract_loop source vsource fuel s)) ∧
    (∀ (source vsource : Nat → List Row) (fuel : Nat) (s : ExtractState),
        maxNoDataAttempts ≤ s.consecutive ∨ maxAttempts ≤ s.attempts →
        extract_loop source vsource fuel s = s) ∧
    (∀ vsource : Nat → List Row,
        (extract_product_data none true [] emptySource vsource).attempts = maxNoDataAttempts) := by
  refine ⟨extract_loop_exit, extract_loop_stopped, ?_⟩
  intro vsource
  rfl

/-- C2 (witness): the exit condition holds after running the loop with full
fuel from the fresh empty start. -/
theorem C2_witness :
    loopExitCondition (extract_loop emptySource emptySource maxAttempts (initLoopState none [])) :=
  C2_termination.1 emptySource emptySource maxAttempts (initLoopState none []) (by decide)

/-- C3 (counterexample): resuming 3299 records and finding one new one, the
Result Set reaches the 3300 target, yet the loop terminates after that very
attempt with zero verification passes — the claimed extra verification
scroll+extract passes never happen. -/
theorem C3_counterexample :
    expectedTotal ≤ (extract_product_data (some bigSeed) true [] oneNewSource
      emptySource).products.length ∧
    (extract_product_data (some bigSeed) true [] oneNewSource emptySource).verifyPasses = 0 ∧
    (extract_product_data (some bigSeed) true [] oneNewSource emptySource).attempts = 1 := by
  have hloop : extract_loop oneNewSource emptySource maxAttempts (initLoopState (some bigSeed) []) =
      loopIter oneNewSource (initLoopState (some bigSeed) []) := by
    have hm : maxAttempts = 99 + 1 := rfl
    rw [hm, extract_loop_succ]
    rw [if_pos (⟨by decide, by decide⟩ :
      (initLoopState (some bigSeed) []).consecutive < maxNoDataAttempts ∧
        (initLoopState (some bigSeed) []).attempts < maxAttempts)]
    rw [if_pos (show expectedTotal ≤
      (loopIter oneNewSource (initLoopState (some bigSeed) [])).products.length by
        rw [bigSeed_length]; decide)]
  refine ⟨?_, ?_, ?_⟩
  · rw [extract_product_data_true_products, hloop, bigSeed_length]
    decide
  · rw [extract_product_data_true_verifyPasses, hloop]
    rfl
  · rw [extract_product_data_true_attempts, hloop]
    rw [show (loopIter oneNewSource (initLoopState (some bigSeed) [])).attempts =
      (initLoopState (some bigSeed) []).attempts + 1 from rfl, initLoopState_attempts]

/-- C3 (amended): the loop never performs a verification pass — the
verification branch is dead behind the quick exit — and whenever an
iteration makes the Result Set reach the expected total while the loop is
live, the loop terminates immediately with that iteration's state; in
particular every extraction run ends with zero verification passes. -/
theorem C3_quick_exit_amended (source vsource : Nat → List Row) (fuel : Nat) (s : ExtractState) :
    (extract_loop source vsource fuel s).verifyPasses = s.verifyPasses ∧
    (s.consecutive < maxNoDataAttempts → s.attempts < maxAttempts →
      expectedTotal ≤ (loopIter source s).products.length →
      extract_loop source vsource (fuel + 1) s = loopIter source s) ∧
    (∀ (resumed : Option (List Product)) (cf : Bool) (rows : List Row),
      (extract_product_data resumed cf rows source vsource).verifyPasses = 0) := by
  refine ⟨extract_loop_verifyPasses source vsource fuel s, ?_, ?_⟩
  · intro h1 h2 h3
    rw [extract_loop_succ, if_pos ⟨h1, h2⟩, if_pos h3]
  · intro resumed cf rows
    cases cf
    · rfl
    · rw [extract_product_data_true_verifyPasses, extract_loop_verifyPasses]
      rfl

/-- C3 (witness): the quick exit fires concretely on the run that crosses
the target: one live iteration and the loop returns its state. -/
theorem C3_witness :
    extract_loop oneNewSource emptySource (99 + 1) (initLoopState (some bigSeed) []) =
      loopIter oneNewSource (initLoopState (some bigSeed) []) :=
  (C3_quick_exit_amended oneNewSource emptySource 99 (initLoopState (some bigSeed) [])).2.1
    (by decide) (by decide) (by rw [bigSeed_length]; decide)

/-- C4 (counterexample): a run whose loop exits through the stall threshold
with an empty Result Set writes no completed checkpoint at all, refuting the
claim that every exit path writes one. -/
theorem C4_counterexample :
    (runScraper true true true none true [] emptySource emptySource).completedSaved = false ∧
    (extract_product_data none true [] emptySource emptySource).attempts = maxNoDataAttempts := by
  decide

/-- C4 (amended): the driver reports success exactly when it writes the
final completed checkpoint, and (with the collaborator steps succeeding)
that completed checkpoint is written if and only if the extraction returned
a non-empty Result Set. -/
theorem C4_completed_save_amended (authOk launchOk navOk : Bool) (resumed : Option (List Product))
    (cf : Bool) (rows : List Row) (source vsource : Nat → List Row) :
    (runScraper authOk launchOk navOk resumed cf rows source vsource).success =
      (runScraper authOk launchOk navOk resumed cf rows source vsource).completedSaved ∧
    (runScraper true true true resumed cf rows source vsource).completedSaved =
      !((extract_product_data resumed cf rows source vsource).products.isEmpty) := by
  constructor
  · cases authOk
    · rfl
    · cases launchOk
      · rfl
      · cases navOk
        · rfl
        · rw [runScraper_true]
          cases hb : (extract_product_data resumed cf rows source vsource).products.isEmpty
          · rw [if_neg Bool.false_ne_true]
          · rw [if_pos rfl]
  · rw [runScraper_true]
    cases hb : (extract_product_data resumed cf rows source vsource).products.isEmpty
    · rw [if_neg Bool.false_ne_true]
      rfl
    · rw [if_pos rfl]
      rfl

/-- C5 (counterexample): with a resumed non-empty checkpoint and no
scrollable container, the driver reports success, refuting the claim that
the structural failure is surfaced for every starting state. -/
theorem C5_counterexample :
    (runScraper true true true (some [mkProductId "A1"]) false [] emptySource
      emptySource).success = true := by
  decide

/-- C5 (amended): when no scrollable container is found the extraction
returns the seeded Result Set untouched with no checkpoint written and zero
attempts, and the driver reports failure exactly when that seed is empty —
so a fresh start fails, but a resumed non-empty checkpoint reports success. -/
theorem C5_container_failure_amended (resumed : Option (List Product)) (rows : List Row)
    (source vsource : Nat → List Row) :
    (extract_product_data resumed false rows source vsource).products = resumed.getD [] ∧
    (extract_product_data resumed false rows source vsource).saves = [] ∧
    (extract_product_data resumed false rows source vsource).attempts = 0 ∧
    (runScraper true true true resumed false rows source vsource).success =
      !((resumed.getD []).isEmpty) := by
  refine ⟨rfl, rfl, rfl, ?_⟩
  rw [runScraper_true]
  have h : (extract_product_data resumed false rows source vsource).products =
    resumed.getD [] := rfl
  rw [h]
  cases hb : (resumed.getD []).isEmpty
  · rw [if_neg Bool.false_ne_true]
    rfl
  · rw [if_pos rfl]
    rfl

/-- C6: the dedup filter keeps exactly the first occurrences of records with
truthy, unseen ids and some truthy field; it adds exactly the kept ids to
the seen set; and on the example batch with ids A1, A3, A3, "" over the
seen set {A1, A2} it keeps exactly the A3 record once, while a second pass
over the identical batch keeps nothing. -/
theorem C6_filterNew_spec :
    (∀ (b : List Product) (seen : List String) (p : Product),
        p ∈ (filterNew b seen).1 ↔ FirstOcc b seen p) ∧
    (∀ (b : List Product) (seen : List String) (x : String),
        x ∈ (filterNew b seen).2 ↔ x ∈ (filterNew b seen).1.map idOf ∨ x ∈ seen) ∧
    filterNew exBatch exSeen = ([mkProductId "A3"], ["A3", "A1", "A2"]) ∧
    filterNew exBatch ["A3", "A1", "A2"] = ([], ["A3", "A1", "A2"]) :=
  ⟨fun b seen p => filterNew_mem_iff b seen p,
   fun b seen x => filterNew_snd_mem b seen x,
   by decide, by decide⟩

/-- C6 (witness): the first-occurrence characterisation instantiated at the
example batch, seen set and kept record. -/
theorem C6_witness :
    mkProductId "A3" ∈ (filterNew exBatch exSeen).1 ↔
      FirstOcc exBatch exSeen (mkProductId "A3") :=
  C6_filterNew_spec.1 exBatch exSeen (mkProductId "A3")

/-- C7: feeding any batch to the dedup filter twice in a row yields no kept
record on the second feed and leaves the seen set unchanged. -/
theorem C7_idempotent_repoll (b : List Product) (seen : List String) :
    filterNew b (filterNew b seen).2 = ([], (filterNew b seen).2) :=
  filterNew_eq_nil b (filterNew b seen).2
    (fun q hq ht => filterNew_mem_snd_of_truthy b seen q hq ht)

/-- C7 (witness): the second feed of the example batch keeps nothing. -/
theorem C7_witness :
    filterNew exBatch (filterNew exBatch exSeen).2 = ([], (filterNew exBatch exSeen).2) :=
  C7_idempotent_repoll exBatch exSeen

/-- C8: in every extraction run, an iteration writes a checkpoint if and
only if its attempt number is a multiple of five or its batch yielded zero
new records. -/
theorem C8_checkpoint_rule (resumed : Option (List Product)) (cf : Bool) (rows : List Row)
    (source vsource : Nat → List Row) (r : IterRec)
    (hr : r ∈ (extract_product_data resumed cf rows source vsource).trace) :
    checkpointRule r := by
  cases cf
  · exact absurd hr (List.not_mem_nil r)
  · rw [extract_product_data_true_trace] at hr
    refine extract_loop_trace source vsource maxAttempts (initLoopState resumed rows) ?_ r hr
    intro x hx
    exact absurd hx (List.not_mem_nil x)

/-- C8 (witness): the first iteration record of the fresh empty run
checkpoints and satisfies the rule. -/
theorem C8_witness :
    checkpointRule { attempt := 1, newCount := 0, saved := true, countAfter := 0 } :=
  C8_checkpoint_rule none true [] emptySource emptySource
    { attempt := 1, newCount := 0, saved := true, countAfter := 0 } (by decide)

/-- C9 (counterexample): the fresh one-record run checkpoints repeatedly at
running total 1, so the backup filenames of its checkpoint events collide —
`progress_backup_1.json` is overwritten, refuting the never-overwritten
claim. -/
theorem C9_counterexample :
    ¬ (((extract_product_data none true oneRow emptySource
      emptySource).saves.map backupName).Nodup) := by
  decide

/-- C9 (amended): every checkpoint event writes the backup named by its
running total, and those totals are non-decreasing across the run — so an
event repeating the previous total rewrites the same
`progress_backup_<count>.json` file instead of creating a new one. -/
theorem C9_backup_names_amended (resumed : Option (List Product)) (cf : Bool) (rows : List Row)
    (source vsource : Nat → List Row) :
    ((extract_product_data resumed cf rows source vsource).saves).Sorted (· ≤ ·) := by
  cases cf
  · exact List.sorted_nil
  · have hinit1 : (initLoopState resumed rows).saves.Sorted (· ≤ ·) := by
      show (initialSaves resumed rows).Sorted (· ≤ ·)
      unfold initialSaves
      split
      · exact List.sorted_singleton _
      · exact List.sorted_nil
    have hinit2 : ∀ c ∈ (initLoopState resumed rows).saves,
        c ≤ (initLoopState resumed rows).products.length := by
      intro c hc
      show c ≤ (initLoopState resumed rows).products.length
      revert hc
      show c ∈ initialSaves resumed rows → _
      rw [initLoopState_products]
      unfold initialSaves
      split
      · intro hc
        rw [List.mem_singleton] at hc
        exact le_of_eq hc
      · intro hc
        exact absurd hc (List.not_mem_nil c)
    obtain ⟨hs, hb⟩ := extract_loop_savesSorted source vsource maxAttempts
      (initLoopState resumed rows) hinit1 hinit2
    rw [extract_product_data_true_saves, List.Sorted, List.pairwise_append]
    refine ⟨hs, List.pairwise_singleton _ _, ?_⟩
    intro a ha b hbm
    rw [List.mem_singleton] at hbm
    subst hbm
    exact hb a ha

/-- C10: on a fresh start the final Result Set is the initial extraction
output followed by loop additions only; the initial records are taken
verbatim (no id requirement beyond id-or-sku, no dedup), while every
loop-added record has a truthy id distinct from all earlier ids. -/
theorem C10_initial_pass (rows : List Row) (source vsource : Nat → List Row) :
    ∃ rest : List Product,
      (extract_product_data none true rows source vsource).products =
        extract_current_page_data rows ++ rest ∧
      (∀ p ∈ rest, truthyId p = true) ∧
      (rest.map idOf).Nodup ∧
      (∀ x ∈ rest.map idOf, x ∉ idsOf (extract_current_page_data rows)) ∧
      (∀ p ∈ extract_current_page_data rows,
        truthyOpt p.id = true ∨ truthyOpt p.sku = true) := by
  obtain ⟨added, h1, h2, h3, h4, -⟩ :=
    extract_loop_growth source vsource maxAttempts (initLoopState none rows)
  refine ⟨added, ?_, h2, h3, ?_, fun p hp => extract_validity rows p hp⟩
  · rw [extract_product_data_true_products, h1, initLoopState_products, initialResultSet_fresh]
  · intro x hx hmem
    apply h4 x hx
    rw [initLoopState_seen, initialResultSet_fresh]
    exact hmem

/-- C10 (witness): the prefix equation of the fresh-start decomposition at a
concrete one-row page against an empty source. -/
theorem C10_witness :
    ∃ rest : List Product,
      (extract_product_data none true oneRow emptySource emptySource).products =
        extract_current_page_data oneRow ++ rest ∧
      (∀ p ∈ rest, truthyId p = true) ∧
      (rest.map idOf).Nodup ∧
      (∀ x ∈ rest.map idOf, x ∉ idsOf (extract_current_page_data oneRow)) ∧
      (∀ p ∈ extract_current_page_data oneRow,
        truthyOpt p.id = true ∨ truthyOpt p.sku = true) :=
  C10_initial_pass oneRow emptySource emptySource

end Scraper
